import Mathlib

/-!
Verification development for the product-feedback dashboard worker
(source: src/index.ts).  The theme classification, aggregation, risk
scoring, headline selection and KPI resolution logic is embedded
shallowly: JavaScript strings are Lean strings (operated on as lists of
characters), JavaScript numbers are Nat/Int with exact rational rounding
for Math.round, the regular expressions of the source are embedded as
explicit word-boundary pattern matchers, and JS Map objects (insertion
ordered) are association lists.
-/

namespace Dashboard

/-! ### Character and string utilities -/

/-- Membership in the JS regex word class [A-Za-z0-9_], used by the \b
word-boundary assertions of the source's regular expressions. -/
def isWordChar (c : Char) : Bool :=
  c.isAlphanum || c == '_'

/-- True when the character is one of the quote characters stripped by the
source's replace(^["']|["']$) regex. -/
def isQuoteChar (c : Char) : Bool :=
  c == '"' || c == '\''

/-- Models s.replace(^["']|["']$ with the g flag, empty replacement): at most
one leading and one trailing quote character are removed. -/
def stripEdgeQuotes (s : List Char) : List Char :=
  let afterHead :=
    match s with
    | [] => []
    | c :: rest => if isQuoteChar c then rest else c :: rest
  match afterHead.getLast? with
  | some c => if isQuoteChar c then afterHead.dropLast else afterHead
  | none => []

/-- Models the JS String.prototype.trim on a character list. -/
def trimChars (s : List Char) : List Char :=
  ((s.dropWhile Char.isWhitespace).reverse.dropWhile Char.isWhitespace).reverse

/-- Models the JS String.prototype.trim. -/
def strTrim (s : String) : String :=
  String.mk (trimChars s.data)

/-- Lower-cases a character list, as JS toLowerCase does on ASCII input. -/
def lowerChars (s : List Char) : List Char :=
  s.map Char.toLower

/-- Lower-cases a string (JS toLowerCase on ASCII input). -/
def strLower (s : String) : String :=
  String.mk (lowerChars s.data)

/-- Plain substring test, modelling JS String.prototype.includes. -/
def hasSub (needle : List Char) : List Char → Bool
  | [] => needle.isEmpty
  | c :: rest => needle.isPrefixOf (c :: rest) || hasSub needle rest

/-- Scanner state step for the removal of word-bounded digit runs,
modelling replace(\b\d{2,}\b, g flag, empty replacement).  The pending
argument holds a candidate digit run that opened at a word boundary; the
prevNonWord flag records whether the previous original character was
outside the word class (so a new run may open). -/
def stripNumAux (pending : List Char) (prevNonWord : Bool) : List Char → List Char
  | [] => if 2 ≤ pending.length then [] else pending
  | c :: rest =>
    if c.isDigit then
      if pending.isEmpty then
        if prevNonWord then stripNumAux [c] false rest
        else c :: stripNumAux [] false rest
      else stripNumAux (pending ++ [c]) false rest
    else
      let keep := if 2 ≤ pending.length && !(isWordChar c) then [] else pending
      keep ++ (c :: stripNumAux [] (!(isWordChar c)) rest)

/-- Removes word-bounded runs of two or more digits (the source's numeric
identifier scrubbing). -/
def stripNums (s : List Char) : List Char :=
  stripNumAux [] true s

/-- Hex digit per the source's UUID regex character class (with the i flag). -/
def isHexChar (c : Char) : Bool :=
  c.isDigit || ('a' ≤ c && c ≤ 'f') || ('A' ≤ c && c ≤ 'F')

/-- Consumes exactly n hex characters, returning the remainder. -/
def consumeHex : Nat → List Char → Option (List Char)
  | 0, s => some s
  | _ + 1, [] => none
  | n + 1, c :: rest => if isHexChar c then consumeHex n rest else none

/-- Consumes one hyphen. -/
def consumeDash : List Char → Option (List Char)
  | '-' :: rest => some rest
  | _ => none

/-- Tests whether a 8-4-4-4-12 UUID-shaped token starts at the head of the
list (36 characters). -/
def uuidTest (s : List Char) : Bool :=
  (do
    let s ← consumeHex 8 s
    let s ← consumeDash s
    let s ← consumeHex 4 s
    let s ← consumeDash s
    let s ← consumeHex 4 s
    let s ← consumeDash s
    let s ← consumeHex 4 s
    let s ← consumeDash s
    consumeHex 12 s).isSome

/-- Scanner for the UUID removal.  The fuel argument makes the recursion
structural; every step consumes at least one character (a match consumes
36), so fuel equal to the input length never runs out. -/
def stripUuidsAux : Nat → List Char → List Char
  | _, [] => []
  | 0, s => s
  | n + 1, c :: rest =>
    if uuidTest (c :: rest) then stripUuidsAux n ((c :: rest).drop 36)
    else c :: stripUuidsAux n rest

/-- Removes UUID-shaped tokens, modelling the source's second replace of
toAbstractLabel (no word-boundary assertions in that regex). -/
def stripUuids (s : List Char) : List Char :=
  stripUuidsAux s.length s

/-- Splits on whitespace runs and drops empty fragments, modelling
split(\s+) followed by the length>0 filter.  The cur accumulator holds the
current word reversed. -/
def splitWsAux (cur : List Char) : List Char → List (List Char)
  | [] => if cur.isEmpty then [] else [cur.reverse]
  | c :: rest =>
    if c.isWhitespace then
      if cur.isEmpty then splitWsAux [] rest
      else cur.reverse :: splitWsAux [] rest
    else splitWsAux (c :: cur) rest

/-- Whitespace word splitting. -/
def splitWs (s : List Char) : List (List Char) :=
  splitWsAux [] s

/-- Joins words with single spaces, modelling Array.prototype.join(' '). -/
def joinSpace : List (List Char) → List Char
  | [] => []
  | [w] => w
  | w :: ws => w ++ ' ' :: joinSpace ws

/-! ### Word-boundary regex patterns

The source's keyword regexes all have the shape \b(alt|alt|...)\b where an
alternative is a literal string possibly containing the two-character
sequence .? (one optional arbitrary non-newline character).  A pattern is
a token list; a regex is a list of alternatives. -/

/-- One token of a regex alternative: a literal character, or .? (zero or
one arbitrary non-newline character). -/
inductive PTok where
  | lit (c : Char)
  | anyOpt
deriving DecidableEq

/-- Literal pattern from a string. -/
def lits (s : String) : List PTok :=
  s.data.map PTok.lit

/-- Matches a token list against the head of the input; on success the
continuation is run on the remainder (alternation over the optional
token's two readings). -/
def tokMatch : List PTok → List Char → (List Char → Bool) → Bool
  | [], s, k => k s
  | PTok.lit _ :: _, [], _ => false
  | PTok.lit c :: p, b :: s, k => c == b && tokMatch p s k
  | PTok.anyOpt :: p, s, k =>
    tokMatch p s k ||
      match s with
      | [] => false
      | b :: s2 => b != '\n' && tokMatch p s2 k

/-- The closing word boundary: end of input or a non-word character next
(every alternative of the source's regexes ends in a word character). -/
def boundEnd : List Char → Bool
  | [] => true
  | c :: _ => !(isWordChar c)

/-- Scans for a word-bounded match of any alternative, carrying whether
the previous character was outside the word class (every alternative
starts with a word character, so the opening \b holds exactly there). -/
def wbTestFrom (alts : List (List PTok)) : Bool → List Char → Bool
  | _, [] => false
  | prevNonWord, c :: rest =>
    (prevNonWord && alts.any fun p => tokMatch p (c :: rest) boundEnd) ||
      wbTestFrom alts (!(isWordChar c)) rest

/-- Models RegExp.prototype.test for the \b(...)\b regexes of the source. -/
def wbTest (alts : List (List PTok)) (s : List Char) : Bool :=
  wbTestFrom alts true s

/-! ### Keyword table and abstract labels (source: KEYWORD_TO_THEME,
toAbstractLabel) -/

/-- Map keywords (lowercase) to a canonical theme.  Order matters: first
match wins.  The theme strings are the CANONICAL_THEMES entries of the
source. -/
def KEYWORD_TO_THEME : List (List String × String) :=
  [(["login", "auth", "password", "sign-in", "signin", "session", "token", "sso", "saml", "idp"],
    "Authentication / Login Issues"),
   (["delay", "slow", "response time", "wait", "support", "reply", "ticket"],
    "Support Response Delays"),
   (["email", "delivery", "inbox", "notification", "mail"],
    "Email Delivery Issues"),
   (["api", "timeout", "504", "failing", "gateway timeout"],
    "API Timeout Errors"),
   (["link", "validation", "invalid", "error", "broken", "expired", "verify"],
    "Link / Validation Errors"),
   (["status", "confusion", "update", "tracking", "state"],
    "Issue / Ticket Status"),
   (["github", "needs info", "workflow", "triage", "issue status", "labels"],
    "\"Needs Info\" Workflow Friction"),
   (["documentation", "docs", "guide", "scattered", "right page"],
    "Documentation Confusion")]

/-- First keyword rule whose keyword set has a substring hit in the
lower-cased text (the matching loop of toAbstractLabel). -/
def keywordTheme (lower : List Char) : Option String :=
  (KEYWORD_TO_THEME.find? fun rule => rule.1.any fun k => hasSub k.data lower).map (·.2)

/-- Turn raw text into a short abstract label (2 to 5 words) or map to a
canonical theme (source: toAbstractLabel).  Strips edge quotes, numeric
identifier runs, UUID-shaped tokens; rejects short residues; maps by
keyword first; otherwise keeps the first 2 to 5 whitespace words,
shortening sentence-like results to the first 2 words. -/
def toAbstractLabel (raw : String) : Option String :=
  let s := trimChars (stripUuids (stripNums (stripEdgeQuotes raw.data)))
  if s.length < 3 then none
  else
    let lower := lowerChars s
    match keywordTheme lower with
    | some theme => some theme
    | none =>
      let words := (splitWs s).take 5
      if words.length < 2 then none
      else
        let label := joinSpace words
        if label.getLast? == some '.' || 50 < label.length then
          let short := joinSpace (words.take 2)
          if short.isEmpty then none else some (String.mk short)
        else some (String.mk label)

/-! ### Data model (source: FeedbackRow, ENTERPRISE_SOURCES, Math.round) -/

/-- One feedback record as read from storage. -/
structure FeedbackRow where
  id : Int
  source : String
  sentiment : String
  comment : String
  timestamp : String
deriving DecidableEq

/-- Sources treated as enterprise (B2B), source: ENTERPRISE_SOURCES.has
on the lower-cased source name. -/
def isEnterpriseSource (s : String) : Bool :=
  strLower s == "customer support tickets" || strLower s == "email"

/-- Math.round (p / q) for q > 0 as exact rational rounding: the floor of
p / q + 1 / 2, with .5 ties rounding toward positive infinity as in JS. -/
def jsRound (p q : Int) : Int :=
  Int.fdiv (2 * p + q) (2 * q)

/-! ### Theme aggregation (source: aggregateThemes) -/

/-- Mutable per-theme tally of the source's themeMap. -/
structure ThemeRec where
  total : Nat
  enterprise : Nat
  selfServe : Nat
  negative : Nat
deriving DecidableEq

/-- The zero tally installed when a theme key is first seen. -/
def emptyRec : ThemeRec := ⟨0, 0, 0, 0⟩

/-- The theme key of a row inside aggregateThemes:
toAbstractLabel(comment) with the Other default. -/
def rowTheme (r : FeedbackRow) : String :=
  (toAbstractLabel r.comment).getD "Other"

/-- The per-row tally mutation of the add closure (only reached for today
rows in the source). -/
def bumpRec (r : FeedbackRow) (rec : ThemeRec) : ThemeRec :=
  { total := rec.total + 1
    enterprise := rec.enterprise + (if isEnterpriseSource r.source then 1 else 0)
    selfServe := rec.selfServe + (if isEnterpriseSource r.source then 0 else 1)
    negative := rec.negative + (if strLower r.sentiment == "negative" then 1 else 0) }

/-- Insertion-ordered map update: existing key is mutated in place, a new
key is appended with the bumped zero tally (JS Map has/set/get). -/
def updateRec (m : List (String × ThemeRec)) (key : String) (r : FeedbackRow) :
    List (String × ThemeRec) :=
  match m with
  | [] => [(key, bumpRec r emptyRec)]
  | (k, rec) :: rest =>
    if k = key then (k, bumpRec r rec) :: rest
    else (k, rec) :: updateRec rest key r

/-- One step of the today forEach of aggregateThemes. -/
def addToday (m : List (String × ThemeRec)) (r : FeedbackRow) : List (String × ThemeRec) :=
  updateRec m (rowTheme r) r

/-- Insertion-ordered counting map bump (the yesterdayByTheme Map). -/
def bumpCount (m : List (String × Nat)) (key : String) : List (String × Nat) :=
  match m with
  | [] => [(key, 1)]
  | (k, n) :: rest =>
    if k = key then (k, n + 1) :: rest
    else (k, n) :: bumpCount rest key

/-- Aggregated per-theme statistics (source type AggregatedTheme). -/
structure AggregatedTheme where
  theme : String
  total_mentions : Nat
  enterprise_mentions : Nat
  self_serve_mentions : Nat
  percent_negative : Int
  yesterday_mentions : Nat
  percent_change_vs_yesterday : Int
deriving DecidableEq

/-- Builds the output record of aggregateThemes for one themeMap entry. -/
def buildAggregate (yesterdayByTheme : List (String × Nat)) (e : String × ThemeRec) :
    AggregatedTheme :=
  let yesterday_mentions := (yesterdayByTheme.lookup e.1).getD 0
  { theme := e.1
    total_mentions := e.2.total
    enterprise_mentions := e.2.enterprise
    self_serve_mentions := e.2.selfServe
    percent_negative :=
      if 0 < e.2.total then jsRound (100 * (e.2.negative : Int)) (e.2.total : Int) else 0
    yesterday_mentions := yesterday_mentions
    percent_change_vs_yesterday :=
      if 0 < yesterday_mentions then
        jsRound (100 * ((e.2.total : Int) - (yesterday_mentions : Int))) (yesterday_mentions : Int)
      else if 0 < e.2.total then 100
      else 0 }

/-- Aggregate theme stats from today and yesterday feedback (source:
aggregateThemes).  Only today rows populate themeMap; yesterday rows only
feed the yesterdayByTheme counts. -/
def aggregateThemes (todayItems yesterdayItems : List FeedbackRow) : List AggregatedTheme :=
  let themeMap := todayItems.foldl addToday []
  let yesterdayByTheme := yesterdayItems.foldl (fun m r => bumpCount m (rowTheme r)) []
  themeMap.map (buildAggregate yesterdayByTheme)

/-! ### Risk scoring and headline selection (source: computeRiskScore,
byRiskDesc, bestLow, candidate3, top3) -/

/-- Risk tier of a theme. -/
inductive RiskLevel where
  | critical
  | monitor
  | lowImpact
deriving DecidableEq

/-- A theme aggregate with its risk score and tier (the aggregatedWithRisk
entries of the source; the presentation-only icon field is omitted). -/
structure ScoredTheme where
  theme : String
  total_mentions : Nat
  enterprise_mentions : Nat
  self_serve_mentions : Nat
  percent_negative : Int
  yesterday_mentions : Nat
  percent_change_vs_yesterday : Int
  risk_score : Nat
  risk_level : RiskLevel
deriving DecidableEq

/-- risk_score = 3 per enterprise mention + 1 per self-serve mention + 2
if at least half the mentions are negative; tier thresholds 20 and 10
(source: computeRiskScore). -/
def computeRiskScore (a : AggregatedTheme) : Nat × RiskLevel :=
  let base := a.enterprise_mentions * 3 + a.self_serve_mentions * 1
  let risk_score := if 50 ≤ a.percent_negative then base + 2 else base
  (risk_score,
   if 20 ≤ risk_score then RiskLevel.critical
   else if 10 ≤ risk_score then RiskLevel.monitor
   else RiskLevel.lowImpact)

/-- Spread of an aggregate with its risk fields. -/
def addRisk (a : AggregatedTheme) : ScoredTheme :=
  { theme := a.theme
    total_mentions := a.total_mentions
    enterprise_mentions := a.enterprise_mentions
    self_serve_mentions := a.self_serve_mentions
    percent_negative := a.percent_negative
    yesterday_mentions := a.yesterday_mentions
    percent_change_vs_yesterday := a.percent_change_vs_yesterday
    risk_score := (computeRiskScore a).1
    risk_level := (computeRiskScore a).2 }

/-- The aggregatedWithRisk list of the dashboard pipeline. -/
def aggregatedWithRisk (todayItems yesterdayItems : List FeedbackRow) : List ScoredTheme :=
  (aggregateThemes todayItems yesterdayItems).map addRisk

/-- JS Array.prototype.sort with a consistent numeric key comparator is
the stable sort; with comparator (a, b) => key b - key a the result is the
stable descending sort by key, which insertion sort with the relation
key b ≤ key a computes. -/
def sortByDesc (key : α → Int) (l : List α) : List α :=
  List.insertionSort (fun a b => key b ≤ key a) l

/-- Sort key of the headline comparators (b.risk_score - a.risk_score). -/
def scoreKey (x : ScoredTheme) : Int :=
  (x.risk_score : Int)

/-- Tier test used by the bestLow filter and the hasLowInTop3 check. -/
def isLowImpact (x : ScoredTheme) : Bool :=
  match x.risk_level with
  | RiskLevel.lowImpact => true
  | _ => false

/-- All scored themes sorted by risk score descending (source const
byRiskDesc). -/
def byRiskDescOf (l : List ScoredTheme) : List ScoredTheme :=
  sortByDesc scoreKey l

/-- Highest-scoring Low Impact theme if any (source const bestLow). -/
def bestLowOf (l : List ScoredTheme) : Option ScoredTheme :=
  (sortByDesc scoreKey (l.filter isLowImpact)).head?

/-- Top three candidates by risk score (source const candidate3). -/
def candidate3Of (l : List ScoredTheme) : List ScoredTheme :=
  (byRiskDescOf l).take 3

/-- The headline ternary: when a Low Impact theme exists, none of the
candidates is Low Impact and there are at least three candidates, the
third slot is replaced by the best Low Impact theme. -/
def mkTop3 (bestLow : Option ScoredTheme) (candidate3 : List ScoredTheme) : List ScoredTheme :=
  match bestLow with
  | none => candidate3
  | some bl =>
    if candidate3.any isLowImpact then candidate3
    else
      match candidate3 with
      | a :: b :: _ :: _ => [a, b, bl]
      | _ => candidate3

/-- The top3 headline selection of the dashboard route. -/
def headlineTop3 (l : List ScoredTheme) : List ScoredTheme :=
  mkTop3 (bestLowOf l) (candidate3Of l)

/-! ### Backend keyword classifier and canonical cluster mapping
(source: getThemeForCommentBackend, normalizeToCanonicalCluster,
postProcessThemeLabel) -/

/-- Alternatives of the backend rule 1 regex
(login|sso|auth|password|authenticate|sign.?in|log.?in). -/
def backendAuthPats : List (List PTok) :=
  [lits "login", lits "sso", lits "auth", lits "password", lits "authenticate",
   lits "sign" ++ [PTok.anyOpt] ++ lits "in", lits "log" ++ [PTok.anyOpt] ++ lits "in"]

/-- Alternatives of the backend rule 2 regex
(api|rate.?limit|timeout|500|endpoint). -/
def backendApiPats : List (List PTok) :=
  [lits "api", lits "rate" ++ [PTok.anyOpt] ++ lits "limit", lits "timeout",
   lits "500", lits "endpoint"]

/-- Alternatives of the password-reset regex, shared verbatim by the
backend rule 3 and the canonicalizer rule 1
(password reset|reset link|forgot password|link expired). -/
def passwordResetPats : List (List PTok) :=
  [lits "password reset", lits "reset link", lits "forgot password", lits "link expired"]

/-- Alternatives of deploy|token|session|invalid (backend rule 4). -/
def backendDeployPats : List (List PTok) :=
  [lits "deploy", lits "token", lits "session", lits "invalid"]

/-- Alternatives of ui|interface|ux|design|bug. -/
def uiPats : List (List PTok) :=
  [lits "ui", lits "interface", lits "ux", lits "design", lits "bug"]

/-- Alternatives of email|notification|alert. -/
def emailPats : List (List PTok) :=
  [lits "email", lits "notification", lits "alert"]

/-- Alternatives of reset|forgot|recovery (backend rule 7). -/
def backendRecoveryPats : List (List PTok) :=
  [lits "reset", lits "forgot", lits "recovery"]

/-- Alternatives of status|confusion|tracking. -/
def statusPats : List (List PTok) :=
  [lits "status", lits "confusion", lits "tracking"]

/-- Alternatives of dashboard|latency|slow|performance. -/
def dashboardPats : List (List PTok) :=
  [lits "dashboard", lits "latency", lits "slow", lits "performance"]

/-- Alternatives of documentation|docs|guide|scattered. -/
def docsPats : List (List PTok) :=
  [lits "documentation", lits "docs", lits "guide", lits "scattered"]

/-- Keyword-based theme extraction for a raw comment (source:
getThemeForCommentBackend).  The ordered regex tests of the source, on the
lower-cased comment. -/
def getThemeForCommentBackend (comment : String) : String :=
  let text := lowerChars comment.data
  if wbTest backendAuthPats text then "Authentication / Login Issues"
  else if wbTest backendApiPats text then "API Timeout Errors"
  else if wbTest passwordResetPats text then "Password Reset Issues"
  else if wbTest backendDeployPats text then "Deployment / Session Issues"
  else if wbTest uiPats text then "UI / UX Issues"
  else if wbTest emailPats text then "Notifications / Alerts"
  else if wbTest backendRecoveryPats text then "Account Recovery"
  else if wbTest statusPats text then "Issue / Ticket Status"
  else if wbTest dashboardPats text then "Dashboard Latency"
  else if wbTest docsPats text then "Documentation Confusion"
  else "Other"

/-- Alternatives of api|timeout|500|endpoint|rate.?limit (canonicalizer
rule 2). -/
def clusterApiPats : List (List PTok) :=
  [lits "api", lits "timeout", lits "500", lits "endpoint",
   lits "rate" ++ [PTok.anyOpt] ++ lits "limit"]

/-- Alternatives of the canonicalizer rule 3 regex
(login|sso|auth|authenticate|sign.?in|log.?in|token invalid|redirect|idp). -/
def clusterAuthPats : List (List PTok) :=
  [lits "login", lits "sso", lits "auth", lits "authenticate",
   lits "sign" ++ [PTok.anyOpt] ++ lits "in", lits "log" ++ [PTok.anyOpt] ++ lits "in",
   lits "token invalid", lits "redirect", lits "idp"]

/-- Alternatives of deploy|session|invalid (canonicalizer rule 4). -/
def clusterDeployPats : List (List PTok) :=
  [lits "deploy", lits "session", lits "invalid"]

/-- Alternatives of recovery|forgot (canonicalizer rule 7). -/
def clusterRecoveryPats : List (List PTok) :=
  [lits "recovery", lits "forgot"]

/-- Map an oracle label to a stable product-level cluster (source:
normalizeToCanonicalCluster).  Order matters: the password-reset rule is
first. -/
def normalizeToCanonicalCluster (aiLabel : String) : String :=
  let t := lowerChars aiLabel.data
  if wbTest passwordResetPats t then "Password Reset Issues"
  else if wbTest clusterApiPats t then "API Timeout Errors"
  else if wbTest clusterAuthPats t then "Authentication / Login Issues"
  else if wbTest clusterDeployPats t then "Deployment / Session Issues"
  else if wbTest uiPats t then "UI / UX Issues"
  else if wbTest emailPats t then "Notifications / Alerts"
  else if wbTest clusterRecoveryPats t then "Account Recovery"
  else if wbTest statusPats t then "Issue / Ticket Status"
  else if wbTest dashboardPats t then "Dashboard Latency"
  else if wbTest docsPats t then "Documentation Confusion"
  else aiLabel

/-- Filler prefixes stripped (case-insensitively, in this alternation
order) by postProcessThemeLabel. -/
def fillerPrefixes : List String :=
  ["Improvement in", "Issues with", "Problems related to", "Problem with",
   "Issue with", "Lack of", "Difficulty with"]

/-- Strips the first case-insensitive filler prefix plus following
whitespace; the regex is anchored at the start so at most one alternative
fires. -/
def stripFillerPrefix (s : List Char) : List Char :=
  match fillerPrefixes.find? (fun a => (lowerChars a.data).isPrefixOf (lowerChars s)) with
  | some a => (s.drop a.length).dropWhile Char.isWhitespace
  | none => s

/-- True when the list starts with a word character (the trailing \b of
the article regex holds exactly then, the previous character being the
space of the article). -/
def wordStart : List Char → Bool
  | [] => false
  | c :: _ => isWordChar c

/-- Strips a leading article per the anchored regex (The |A )\b, case
insensitively. -/
def stripArticle (s : List Char) : List Char :=
  let lower := lowerChars s
  if ("the ".data).isPrefixOf lower && wordStart (s.drop 4) then s.drop 4
  else if ("a ".data).isPrefixOf lower && wordStart (s.drop 2) then s.drop 2
  else s

/-- Title-cases a word, keeping words of length at least 2 that are
already fully upper-case-invariant (acronyms). -/
def titleWord (w : List Char) : List Char :=
  if 2 ≤ w.length ∧ w = w.map Char.toUpper then w
  else
    match w with
    | [] => []
    | c :: rest => Char.toUpper c :: rest.map Char.toLower

/-- Remove filler prefixes and normalize an oracle label: trim, strip edge
quotes, cut at the first newline, strip filler prefixes and articles,
trim, cap at 5 words, title-case (source: postProcessThemeLabel). -/
def postProcessThemeLabel (raw : String) : String :=
  let s0 := stripEdgeQuotes (trimChars raw.data)
  let s1 := s0.takeWhile (fun c => c ≠ '\n')
  let s2 := stripArticle (stripFillerPrefix s1)
  let s3 := trimChars s2
  let words := (splitWs s3).take 5
  String.mk (joinSpace (words.map titleWord))

/-! ### Bucketed KPI resolution (source: fallbackThemeAndCount,
getTopThemesForLowBucket, countForCluster, generateThemeWithCount and the
/api/kpi-themes route) -/

/-- One resolved KPI theme. -/
structure KpiEntry where
  label : String
  count : Nat
  enterpriseCount : Nat
deriving DecidableEq

/-- Themes never surfaced on KPI cards. -/
def KPI_EXCLUDED_THEMES : List String :=
  ["Notifications / Alerts", "Issue / Ticket Status"]

/-- Preferred Monitor theme. -/
def MONITOR_PREFERRED_THEME : String :=
  "Authentication / Login Issues"

/-- Cap on issues surfaced for the Low Impact bucket. -/
def LOW_IMPACT_MAX_ISSUES : Nat := 3

/-- Count of enterprise rows in a group. -/
def entCount (rows : List FeedbackRow) : Nat :=
  (rows.filter fun r => isEnterpriseSource r.source).length

/-- Insertion-ordered grouping map push: existing key gets the row
appended, a new key is appended at the end (JS Map of row arrays). -/
def assocAppend (m : List (String × List FeedbackRow)) (key : String) (r : FeedbackRow) :
    List (String × List FeedbackRow) :=
  match m with
  | [] => [(key, [r])]
  | (k, rows) :: rest =>
    if k = key then (k, rows ++ [r]) :: rest
    else (k, rows) :: assocAppend rest key r

/-- One loop step of the grouping loop of fallbackThemeAndCount. -/
def fallbackStep (excludeThemes : List String) (m : List (String × List FeedbackRow))
    (r : FeedbackRow) : List (String × List FeedbackRow) :=
  let theme := getThemeForCommentBackend r.comment
  if theme == "Other" || excludeThemes.contains theme then m
  else assocAppend m theme r

/-- Largest group of the byTheme map after the stable descending sort by
group size, as a KPI entry. -/
def topEntry (byTheme : List (String × List FeedbackRow)) : Option KpiEntry :=
  match (sortByDesc (fun e => (e.2.length : Int)) byTheme).head? with
  | some e => some ⟨e.1, e.2.length, entCount e.2⟩
  | none => none

/-- Fallback: top theme and count from keyword grouping when the oracle
fails (source: fallbackThemeAndCount).  A present preferred theme wins
over the majority theme. -/
def fallbackThemeAndCount (items : List FeedbackRow) (excludeThemes : List String := [])
    (preferTheme : Option String := none) : Option KpiEntry :=
  if items.isEmpty then none
  else
    let byTheme := items.foldl (fallbackStep excludeThemes) []
    match preferTheme with
    | some p =>
      match byTheme.lookup p with
      | some rows => some ⟨p, rows.length, entCount rows⟩
      | none => topEntry byTheme
    | none => topEntry byTheme

/-- One loop step of the grouping loop of getTopThemesForLowBucket. -/
def lowBucketStep (excludeThemes : List String) (includeOther : Bool)
    (m : List (String × List FeedbackRow)) (r : FeedbackRow) :
    List (String × List FeedbackRow) :=
  let theme := getThemeForCommentBackend r.comment
  if (!includeOther && theme == "Other") || excludeThemes.contains theme then m
  else
    assocAppend m (if theme == "Other" && includeOther then "Various feedback" else theme) r

/-- Top themes for the Low Impact bucket (source:
getTopThemesForLowBucket). -/
def getTopThemesForLowBucket (items : List FeedbackRow) (excludeThemes : List String)
    (includeOther : Bool := false) : List KpiEntry :=
  if items.isEmpty then []
  else
    let byTheme := items.foldl (lowBucketStep excludeThemes includeOther) []
    ((sortByDesc (fun e => (e.2.length : Int)) byTheme).take LOW_IMPACT_MAX_ISSUES).map
      fun e => ⟨e.1, e.2.length, entCount e.2⟩

/-- Count of bucket rows classifying to a cluster, with the enterprise
sub-count (source: countForCluster). -/
def countForCluster (items : List FeedbackRow) (cluster : String) : Nat × Nat :=
  let matching := items.filter fun r => getThemeForCommentBackend r.comment == cluster
  (matching.length, entCount matching)

/-- The oracle interaction of generateThemeWithCount, abstracted at the
parse boundary: the call may throw, its text may fail JSON extraction, or
it parses to an optional issue string and optional index array. -/
inductive AiResult where
  | failed
  | unparsable
  | parsed (issue : Option String) (matchingIndices : Option (List Int))
deriving DecidableEq

/-- Oracle-assisted bucket classification (source: generateThemeWithCount;
the prompt construction and the 50-comment cap only shape the oracle
input and are not modelled).  Every rejected precondition, thrown error or
unparsable output resolves to the deterministic fallback with the same
arguments.  The minimum-share test count < 0.05 * bucketSize is the exact
rational comparison 20 * count < bucketSize. -/
def generateThemeWithCount (ai : AiResult) (items : List FeedbackRow)
    (excludeThemes : List String := []) (preferTheme : Option String := none) :
    Option KpiEntry :=
  if items.isEmpty then none
  else
    match ai with
    | AiResult.failed => fallbackThemeAndCount items excludeThemes preferTheme
    | AiResult.unparsable => fallbackThemeAndCount items excludeThemes preferTheme
    | AiResult.parsed issue indices =>
      let rawLabel := (issue.map strTrim).getD ""
      let inds := indices.getD []
      if rawLabel == "" || inds.isEmpty then fallbackThemeAndCount items excludeThemes preferTheme
      else
        let processedLabel := postProcessThemeLabel rawLabel
        if 5 < (splitWs processedLabel.data).length then
          fallbackThemeAndCount items excludeThemes preferTheme
        else
          let canonicalCluster := normalizeToCanonicalCluster processedLabel
          if excludeThemes.contains canonicalCluster then
            fallbackThemeAndCount items excludeThemes preferTheme
          else
            let c := countForCluster items canonicalCluster
            if 20 * c.1 < items.length then
              fallbackThemeAndCount items excludeThemes preferTheme
            else
              match preferTheme with
              | some p =>
                if excludeThemes.contains p then some ⟨canonicalCluster, c.1, c.2⟩
                else
                  let pref := countForCluster items p
                  if 1 ≤ pref.1 then some ⟨p, pref.1, pref.2⟩
                  else some ⟨canonicalCluster, c.1, c.2⟩
              | none => some ⟨canonicalCluster, c.1, c.2⟩

/-! ### The /api/kpi-themes route (deterministic: the route calls
fallbackThemeAndCount directly) -/

/-- Response shape of /api/kpi-themes. -/
structure KpiThemesResponse where
  critical : Option KpiEntry
  monitor : Option KpiEntry
  low : Option (List KpiEntry)
deriving DecidableEq

/-- Negative-sentiment bucket. -/
def kpiCriticalItems (items : List FeedbackRow) : List FeedbackRow :=
  items.filter fun r => strLower r.sentiment == "negative"

/-- Neutral-sentiment bucket. -/
def kpiMonitorItems (items : List FeedbackRow) : List FeedbackRow :=
  items.filter fun r => strLower r.sentiment == "neutral"

/-- Positive-sentiment bucket. -/
def kpiLowItems (items : List FeedbackRow) : List FeedbackRow :=
  items.filter fun r => strLower r.sentiment == "positive"

/-- Label of a resolved entry as an addition to an exclusion set (the
resolved labels are theme names and hence non-empty, so the JS truthiness
test on entry.label passes whenever the entry is non-null). -/
def optLabel : Option KpiEntry → List String
  | some e => [e.label]
  | none => []

/-- Resolved Critical KPI. -/
def kpiCritical (items : List FeedbackRow) : Option KpiEntry :=
  if 0 < (kpiCriticalItems items).length then fallbackThemeAndCount (kpiCriticalItems items)
  else none

/-- Exclusion set for the Monitor bucket: the never-surface set plus the
Critical label. -/
def kpiMonitorExclude (items : List FeedbackRow) : List String :=
  KPI_EXCLUDED_THEMES ++ optLabel (kpiCritical items)

/-- Resolved Monitor KPI. -/
def kpiMonitor (items : List FeedbackRow) : Option KpiEntry :=
  if 0 < (kpiMonitorItems items).length then
    fallbackThemeAndCount (kpiMonitorItems items) (kpiMonitorExclude items)
      (some MONITOR_PREFERRED_THEME)
  else none

/-- Exclusion set for the first Low Impact pass. -/
def kpiLowExclude (items : List FeedbackRow) : List String :=
  kpiMonitorExclude items ++ optLabel (kpiMonitor items)

/-- The exclusion set of the two relaxation retries (the route builds the
same critical-plus-monitor label set twice, as fallbackLowExclude and
minimalExclude). -/
def kpiMinimalExclude (items : List FeedbackRow) : List String :=
  optLabel (kpiCritical items) ++ optLabel (kpiMonitor items)

/-- First Low Impact pass of the route. -/
def kpiLowStep1 (items : List FeedbackRow) : List KpiEntry :=
  getTopThemesForLowBucket (kpiLowItems items) (kpiLowExclude items)

/-- First relaxation retry of the route (exclude only the Critical and
Monitor labels). -/
def kpiLowStep2 (items : List FeedbackRow) : List KpiEntry :=
  if (kpiLowStep1 items).isEmpty && !(kpiLowItems items).isEmpty then
    getTopThemesForLowBucket (kpiLowItems items) (kpiMinimalExclude items)
  else kpiLowStep1 items

/-- The three-step Low Impact resolution of the route: the second retry
additionally folds unclassified records into the Various feedback key. -/
def kpiLowIssues (items : List FeedbackRow) : List KpiEntry :=
  if (kpiLowStep2 items).isEmpty && !(kpiLowItems items).isEmpty then
    getTopThemesForLowBucket (kpiLowItems items) (kpiMinimalExclude items) true
  else kpiLowStep2 items

/-- The /api/kpi-themes response body. -/
def apiKpiThemes (items : List FeedbackRow) : KpiThemesResponse :=
  { critical := kpiCritical items
    monitor := kpiMonitor items
    low := if 0 < (kpiLowIssues items).length then some (kpiLowIssues items) else none }

/-! ### The /api/summary route and its declared cache (source lines 31-33
and the /api/summary handler) -/

/-- Per-source summary entry. -/
structure SourceSummary where
  source : String
  total_items : Nat
  dominant_sentiment : String
  key_issues : List String
deriving DecidableEq

/-- The Summary structure served by /api/summary. -/
structure Summary where
  overall_summary : String
  by_source : List SourceSummary
  top_urgent_issues : List String
deriving DecidableEq

/-- The module-level summary cache cell of the source (let cachedSummary,
let cachedAt).  It carries no calendar-date key. -/
structure SummaryCacheState where
  cachedSummary : Option Summary
  cachedAt : Int
deriving DecidableEq

/-- The declared TTL of the structured summary cache (30 seconds). -/
def CACHE_TTL_MS : Nat := 30000

/-- First-occurrence deduplication, modelling the spread of a JS Set built
from an array. -/
def dedupFirst (seen : List String) : List String → List String
  | [] => []
  | x :: xs =>
    if seen.contains x then dedupFirst seen xs
    else x :: dedupFirst (x :: seen) xs

/-- Takes the first n characters of a string (String.prototype.slice(0, n)
on ASCII input). -/
def strTake (s : String) (n : Nat) : String :=
  String.mk (s.data.take n)

/-- Truncates a comment to n characters with a trailing ellipsis when it
was longer. -/
def clipComment (s : String) (n : Nat) : String :=
  strTake s n ++ (if n < s.data.length then "…" else "")

/-- The by_source entry of summaryFromFeedback for one source. -/
def sourceSummaryOf (items : List FeedbackRow) (source : String) : SourceSummary :=
  let forSource := items.filter fun i => i.source == source
  let sentiments := forSource.map fun i => strLower i.sentiment
  let pos := (sentiments.filter fun s => s == "positive").length
  let neg := (sentiments.filter fun s => s == "negative").length
  { source := source
    total_items := forSource.length
    dominant_sentiment :=
      if forSource.length < 2 * neg then "negative"
      else if forSource.length < 2 * pos then "positive"
      else "neutral"
    key_issues := (forSource.take 5).map fun i => clipComment i.comment 80 }

/-- Build a fully populated Summary from feedback data, used when the
oracle fails or is partial (source: summaryFromFeedback).  The JS
comparisons neg > length / 2 and pos > length / 2 are the exact rational
tests length < 2 * neg and length < 2 * pos. -/
def summaryFromFeedback (items : List FeedbackRow) : Summary :=
  let sources := dedupFirst [] (items.map (·.source))
  { overall_summary :=
      if items.length = 0 then "No feedback has been recorded yet."
      else
        toString items.length ++ " feedback item" ++ (if items.length ≠ 1 then "s" else "") ++
          " from " ++ String.intercalate ", " sources ++ "."
    by_source := sources.map (sourceSummaryOf items)
    top_urgent_issues :=
      (items.take 5).map fun i => i.source ++ ": " ++ clipComment i.comment 60 }

/-- The oracle's summary output after lenient JSON extraction: each field
is present only when it has the right JS type (source type
Partial Summary). -/
structure ParsedSummary where
  overall_summary : Option String
  by_source : Option (List SourceSummary)
  top_urgent_issues : Option (List String)
deriving DecidableEq

/-- Ensure a Summary has all required fields, filling missing or empty
ones from the feedback (source: normalizeSummary). -/
def normalizeSummary (parsed : ParsedSummary) (feedbackItems : List FeedbackRow) : Summary :=
  let fallback := summaryFromFeedback feedbackItems
  { overall_summary :=
      match parsed.overall_summary with
      | some s => if 0 < s.length then s else fallback.overall_summary
      | none => fallback.overall_summary
    by_source :=
      match parsed.by_source with
      | some l => if 0 < l.length then l else fallback.by_source
      | none => fallback.by_source
    top_urgent_issues :=
      match parsed.top_urgent_issues with
      | some l => if 0 < l.length then l else fallback.top_urgent_issues
      | none => fallback.top_urgent_issues }

/-- Oracle outcome for the /api/summary route, abstracted at the parse
boundary: the model call itself may throw (reaching the route's outer
catch), or its text may fail JSON extraction (the inner catch), or it
parses. -/
inductive SummaryAiOut where
  | failed
  | unparsable
  | parsed (p : ParsedSummary)
deriving DecidableEq

/-- Responses of the /api/summary route (bindings assumed present; the
storage read is the items argument). -/
inductive SummaryResponse where
  | ok (s : Summary)
  | errorResp
deriving DecidableEq

/-- The empty-data response of the route. -/
def emptySummary : Summary :=
  { overall_summary := "No feedback has been recorded yet.", by_source := [], top_urgent_issues := [] }

/-- The /api/summary handler as a transition on the module cache cell:
given the declared cache state, the feedback rows and the oracle outcome
it yields the response, the next cache state, and whether the oracle was
invoked.  The source handler never reads nor writes cachedSummary or
cachedAt and calls the oracle on every request with data, so the state
passes through unchanged and the flag is true whenever items is
non-empty. -/
def apiSummary (st : SummaryCacheState) (items : List FeedbackRow) (ai : SummaryAiOut) :
    SummaryResponse × SummaryCacheState × Bool :=
  if items.isEmpty then (SummaryResponse.ok emptySummary, st, false)
  else
    match ai with
    | SummaryAiOut.failed => (SummaryResponse.errorResp, st, true)
    | SummaryAiOut.unparsable => (SummaryResponse.ok (summaryFromFeedback items), st, true)
    | SummaryAiOut.parsed p => (SummaryResponse.ok (normalizeSummary p items), st, true)

/-! ### Arithmetic lemmas for the rounding model -/

theorem jsRound_nonneg {p q : Int} (hp : 0 ≤ p) (hq : 0 < q) : 0 ≤ jsRound p q :=
  Int.fdiv_nonneg (by omega) (by omega)

theorem jsRound_le {p q c : Int} (hq : 0 < q) (h : p ≤ c * q) : jsRound p q ≤ c := by
  rw [jsRound, Int.fdiv_eq_ediv _ (by omega)]
  have hd := Int.ediv_add_emod (2 * p + q) (2 * q)
  have hr0 : 0 ≤ (2 * p + q) % (2 * q) := Int.emod_nonneg _ (by omega)
  by_contra hc
  push_neg at hc
  have h1 : c + 1 ≤ (2 * p + q) / (2 * q) := hc
  have h2 : (2 * q) * (c + 1) ≤ (2 * q) * ((2 * p + q) / (2 * q)) :=
    mul_le_mul_of_nonneg_left h1 (by omega)
  nlinarith

/-! ### Lemmas about the stable descending sort -/

theorem sortByDesc_perm (key : α → Int) (l : List α) : (sortByDesc key l).Perm l :=
  List.perm_insertionSort _ l

theorem sortByDesc_mem (key : α → Int) {l : List α} {a : α} :
    a ∈ sortByDesc key l ↔ a ∈ l :=
  (sortByDesc_perm key l).mem_iff

theorem sortByDesc_length (key : α → Int) (l : List α) :
    (sortByDesc key l).length = l.length :=
  (sortByDesc_perm key l).length_eq

theorem sortByDesc_sorted (key : α → Int) (l : List α) :
    (sortByDesc key l).Pairwise fun a b => key b ≤ key a := by
  haveI : IsTotal α fun a b => key b ≤ key a := ⟨fun a b => le_total (key b) (key a)⟩
  haveI : IsTrans α fun a b => key b ≤ key a := ⟨fun _ _ _ h1 h2 => le_trans h2 h1⟩
  exact List.sorted_insertionSort _ l

theorem sortByDesc_head_max (key : α → Int) {l t : List α} {b : α}
    (h : sortByDesc key l = b :: t) : ∀ x ∈ l, key x ≤ key b := by
  intro x hx
  have hs := sortByDesc_sorted key l
  rw [h] at hs
  have hx2 : x ∈ b :: t := by
    rw [← h, sortByDesc_mem]
    exact hx
  rcases List.mem_cons.mp hx2 with hxb | hxt
  · exact le_of_eq (congrArg key hxb)
  · exact (List.pairwise_cons.mp hs).1 x hxt

theorem sortByDesc_ne_nil (key : α → Int) {l : List α} (h : l ≠ []) :
    sortByDesc key l ≠ [] := by
  intro hnil
  exact h (List.length_eq_zero.mp (by rw [← sortByDesc_length key l, hnil]; rfl))

/-- Stability of the sort: the elements of any single key class come out
in their input order. -/
theorem sortByDesc_filter_eq (key : α → Int) (l : List α) (p : α → Bool)
    (hp : ∀ a b, p a = true → p b = true → key a = key b) :
    (sortByDesc key l).filter p = l.filter p := by
  have hall : ∀ L : List α, (∀ a ∈ L, p a = true) → L.Pairwise fun a b => key b ≤ key a := by
    intro L
    induction L with
    | nil => simp
    | cons x xs ih =>
      intro h
      refine List.pairwise_cons.mpr ⟨fun b hb => ?_, ih fun a ha => h a (List.mem_cons_of_mem _ ha)⟩
      exact le_of_eq (hp b x (h b (List.mem_cons_of_mem _ hb)) (h x (List.mem_cons_self _ _)))
  have hsub : (l.filter p).Sublist (sortByDesc key l) := by
    apply List.sublist_insertionSort
    · exact hall _ fun a ha => List.of_mem_filter ha
    · exact List.filter_sublist l
  have hsub2 : (l.filter p).Sublist ((sortByDesc key l).filter p) := by
    have h1 : (l.filter p).filter p = l.filter p := by
      rw [List.filter_eq_self]
      exact fun a ha => List.of_mem_filter ha
    rw [← h1]
    exact List.Sublist.filter p hsub
  have hlen : (l.filter p).length = ((sortByDesc key l).filter p).length :=
    (((sortByDesc_perm key l).filter p).length_eq).symm
  exact (List.Sublist.eq_of_length hsub2 hlen).symm

/-! ### Lemmas about the aggregation fold -/

/-- Invariant of each themeMap tally. -/
def recInv (rec : ThemeRec) : Prop :=
  rec.enterprise + rec.selfServe = rec.total ∧ rec.negative ≤ rec.total ∧ 1 ≤ rec.total

theorem bumpRec_inv_empty (r : FeedbackRow) : recInv (bumpRec r emptyRec) := by
  unfold recInv bumpRec emptyRec
  dsimp only
  split_ifs <;> omega

theorem bumpRec_inv {rec : ThemeRec} (r : FeedbackRow) (h : recInv rec) :
    recInv (bumpRec r rec) := by
  unfold recInv bumpRec at *
  dsimp only
  split_ifs <;> omega

theorem updateRec_inv {m : List (String × ThemeRec)} {key : String} {r : FeedbackRow}
    (hm : ∀ e ∈ m, recInv e.2) : ∀ e ∈ updateRec m key r, recInv e.2 := by
  induction m with
  | nil =>
    intro e he
    simp only [updateRec, List.mem_singleton] at he
    subst he
    exact bumpRec_inv_empty r
  | cons e0 rest ih =>
    obtain ⟨k, rec⟩ := e0
    intro e he
    by_cases hk : k = key
    · simp only [updateRec, if_pos hk, List.mem_cons] at he
      rcases he with he | he
      · subst he
        exact bumpRec_inv r (hm (k, rec) (List.mem_cons_self _ _))
      · exact hm e (List.mem_cons_of_mem _ he)
    · simp only [updateRec, if_neg hk, List.mem_cons] at he
      rcases he with he | he
      · subst he
        exact hm (k, rec) (List.mem_cons_self _ _)
      · exact ih (fun e' he' => hm e' (List.mem_cons_of_mem _ he')) e he

theorem foldl_addToday_inv (t : List FeedbackRow) (m : List (String × ThemeRec))
    (hm : ∀ e ∈ m, recInv e.2) : ∀ e ∈ t.foldl addToday m, recInv e.2 := by
  induction t generalizing m with
  | nil => exact hm
  | cons r rest ih =>
    exact ih (addToday m r) (updateRec_inv hm)

theorem updateRec_keys (m : List (String × ThemeRec)) (key : String) (r : FeedbackRow) :
    (updateRec m key r).map Prod.fst =
      if key ∈ m.map Prod.fst then m.map Prod.fst else m.map Prod.fst ++ [key] := by
  induction m with
  | nil => simp [updateRec]
  | cons e0 rest ih =>
    obtain ⟨k, rec⟩ := e0
    by_cases hk : k = key
    · subst hk
      simp [updateRec]
    · simp only [updateRec, if_neg hk, List.map_cons, ih]
      by_cases hmem : key ∈ rest.map Prod.fst
      · simp [hmem, hk, Ne.symm hk]
      · simp [hmem, hk, Ne.symm hk]

theorem updateRec_mem_keys {m : List (String × ThemeRec)} {key s : String} {r : FeedbackRow} :
    s ∈ (updateRec m key r).map Prod.fst ↔ s ∈ m.map Prod.fst ∨ s = key := by
  rw [updateRec_keys]
  split_ifs with h
  · constructor
    · exact Or.inl
    · rintro (hs | rfl)
      · exact hs
      · exact h
  · simp

theorem foldl_addToday_mem_keys (t : List FeedbackRow) (m : List (String × ThemeRec))
    (s : String) :
    s ∈ (t.foldl addToday m).map Prod.fst ↔ s ∈ m.map Prod.fst ∨ s ∈ t.map rowTheme := by
  induction t generalizing m with
  | nil => simp
  | cons r rest ih =>
    simp only [List.foldl_cons, ih, addToday, updateRec_mem_keys, List.map_cons,
      List.mem_cons]
    tauto

theorem foldl_addToday_keys_nodup (t : List FeedbackRow) (m : List (String × ThemeRec))
    (hm : (m.map Prod.fst).Nodup) : ((t.foldl addToday m).map Prod.fst).Nodup := by
  induction t generalizing m with
  | nil => exact hm
  | cons r rest ih =>
    apply ih
    rw [addToday, updateRec_keys]
    split_ifs with h
    · exact hm
    · rw [List.nodup_append]
      refine ⟨hm, List.nodup_singleton _, ?_⟩
      intro a ha hb
      rw [List.mem_singleton] at hb
      subst hb
      exact h ha

theorem aggregateThemes_themes (t y : List FeedbackRow) :
    (aggregateThemes t y).map AggregatedTheme.theme = (t.foldl addToday []).map Prod.fst := by
  unfold aggregateThemes
  rw [List.map_map]
  rfl

/-! ### Claim theorems for the aggregator -/

/-- C2: for every pair of input record lists and every aggregate produced
by aggregateThemes, enterprise_mentions + self_serve_mentions equals
total_mentions, and percent_negative lies between 0 and 100 inclusive. -/
theorem c2_aggregate_invariants (todayItems yesterdayItems : List FeedbackRow)
    (a : AggregatedTheme) (ha : a ∈ aggregateThemes todayItems yesterdayItems) :
    a.enterprise_mentions + a.self_serve_mentions = a.total_mentions ∧
      0 ≤ a.percent_negative ∧ a.percent_negative ≤ 100 := by
  obtain ⟨e, he, rfl⟩ := List.mem_map.mp ha
  obtain ⟨h1, h2, h3⟩ :=
    foldl_addToday_inv todayItems [] (by simp) e he
  refine ⟨h1, ?_, ?_⟩
  · simp only [buildAggregate]
    split_ifs with h
    · exact jsRound_nonneg (by positivity) (by exact_mod_cast h)
    · exact le_refl 0
  · simp only [buildAggregate]
    split_ifs with h
    · refine jsRound_le (by exact_mod_cast h) ?_
      have : (e.2.negative : Int) ≤ (e.2.total : Int) := by exact_mod_cast h2
      nlinarith
    · norm_num

/-- Concrete record for the aggregator witnesses. -/
def aggRow : FeedbackRow :=
  ⟨1, "Discord", "negative", "login broken", "2025-01-01T00:00:00Z"⟩

/-- Witness for C2: the single-record aggregate satisfies the invariants. -/
theorem c2_aggregate_invariants_witness :
    (⟨"Authentication / Login Issues", 1, 0, 1, 100, 0, 100⟩ : AggregatedTheme).enterprise_mentions +
        (⟨"Authentication / Login Issues", 1, 0, 1, 100, 0, 100⟩ : AggregatedTheme).self_serve_mentions =
        (⟨"Authentication / Login Issues", 1, 0, 1, 100, 0, 100⟩ : AggregatedTheme).total_mentions ∧
      0 ≤ (⟨"Authentication / Login Issues", 1, 0, 1, 100, 0, 100⟩ : AggregatedTheme).percent_negative ∧
        (⟨"Authentication / Login Issues", 1, 0, 1, 100, 0, 100⟩ : AggregatedTheme).percent_negative ≤ 100 :=
  c2_aggregate_invariants [aggRow] [] _ (by decide)

/-- C3: percent_change_vs_yesterday is the rounded relative change when
yesterday_mentions is positive, 100 when yesterday is zero and today
positive, 0 when both are zero. -/
theorem c3_percent_change (todayItems yesterdayItems : List FeedbackRow)
    (a : AggregatedTheme) (ha : a ∈ aggregateThemes todayItems yesterdayItems) :
    (0 < a.yesterday_mentions →
        a.percent_change_vs_yesterday =
          jsRound (100 * ((a.total_mentions : Int) - (a.yesterday_mentions : Int)))
            (a.yesterday_mentions : Int)) ∧
      (a.yesterday_mentions = 0 → 0 < a.total_mentions →
        a.percent_change_vs_yesterday = 100) ∧
      (a.yesterday_mentions = 0 → a.total_mentions = 0 →
        a.percent_change_vs_yesterday = 0) := by
  obtain ⟨e, he, rfl⟩ := List.mem_map.mp ha
  simp only [buildAggregate]
  refine ⟨fun h => ?_, fun h h' => ?_, fun h h' => ?_⟩
  · rw [if_pos h]
  · rw [if_neg (by omega), if_pos h']
  · rw [if_neg (by omega), if_neg (by omega)]

/-- Witness for C3: five today mentions, zero yesterday mentions give a
percent change of 100 (the example of the specification). -/
theorem c3_percent_change_witness :
    (⟨"Authentication / Login Issues", 5, 0, 5, 100, 0, 100⟩ : AggregatedTheme).yesterday_mentions = 0 ∧
      0 < (⟨"Authentication / Login Issues", 5, 0, 5, 100, 0, 100⟩ : AggregatedTheme).total_mentions ∧
      (⟨"Authentication / Login Issues", 5, 0, 5, 100, 0, 100⟩ : AggregatedTheme).percent_change_vs_yesterday = 100 :=
  ⟨rfl, by decide,
    (c3_percent_change [aggRow, aggRow, aggRow, aggRow, aggRow] [] _ (by decide)).2.1 rfl
      (by decide)⟩

/-- C7 counterexample: a theme observed only among yesterday's records
yields no aggregate; with no today records the output is empty although
yesterday classifies to a theme. -/
theorem c7_counterexample :
    aggregateThemes [] [aggRow] = [] ∧ rowTheme aggRow = "Authentication / Login Issues" :=
  ⟨rfl, by decide⟩

/-- C7 amended: the output of aggregateThemes has exactly one aggregate
per distinct theme observed among the today records (each with at least
one mention); themes observed only among yesterday's records yield no
aggregate. -/
theorem c7_amended_today_themes (todayItems yesterdayItems : List FeedbackRow) :
    ((aggregateThemes todayItems yesterdayItems).map AggregatedTheme.theme).Nodup ∧
      (∀ s, s ∈ (aggregateThemes todayItems yesterdayItems).map AggregatedTheme.theme ↔
        s ∈ todayItems.map rowTheme) ∧
      ∀ a ∈ aggregateThemes todayItems yesterdayItems, 1 ≤ a.total_mentions := by
  refine ⟨?_, fun s => ?_, fun a ha => ?_⟩
  · rw [aggregateThemes_themes]
    exact foldl_addToday_keys_nodup todayItems [] (by simp)
  · rw [aggregateThemes_themes, foldl_addToday_mem_keys]
    simp
  · obtain ⟨e, he, rfl⟩ := List.mem_map.mp ha
    have h := (foldl_addToday_inv todayItems [] (by simp) e he).2.2
    simpa [buildAggregate] using h

/-- Witness for C7 (amended): the aggregate of a concrete today record has
at least one mention. -/
theorem c7_amended_today_themes_witness :
    (⟨"Authentication / Login Issues", 1, 0, 1, 100, 0, 100⟩ : AggregatedTheme).total_mentions ≥ 1 :=
  (c7_amended_today_themes [aggRow] []).2.2 _ (by decide)

/-! ### Lemmas about the headline selection -/

theorem aggregatedWithRisk_themes (t y : List FeedbackRow) :
    (aggregatedWithRisk t y).map ScoredTheme.theme =
      (aggregateThemes t y).map AggregatedTheme.theme := by
  unfold aggregatedWithRisk
  rw [List.map_map]
  rfl

theorem mem_of_mem_candidate3 {s : List ScoredTheme} {x : ScoredTheme}
    (hx : x ∈ candidate3Of s) : x ∈ s := by
  have hx2 : x ∈ byRiskDescOf s := List.take_subset _ _ hx
  exact (sortByDesc_mem scoreKey).mp hx2

theorem byRiskDesc_themes_nodup {s : List ScoredTheme}
    (hnod : (s.map ScoredTheme.theme).Nodup) :
    ((byRiskDescOf s).map ScoredTheme.theme).Nodup :=
  ((sortByDesc_perm scoreKey s).map ScoredTheme.theme).nodup_iff.mpr hnod

theorem candidate3_themes_nodup {s : List ScoredTheme}
    (hnod : (s.map ScoredTheme.theme).Nodup) :
    ((candidate3Of s).map ScoredTheme.theme).Nodup := by
  have hsub : ((candidate3Of s).map ScoredTheme.theme).Sublist
      ((byRiskDescOf s).map ScoredTheme.theme) :=
    (List.take_sublist 3 (byRiskDescOf s)).map ScoredTheme.theme
  exact (byRiskDesc_themes_nodup hnod).sublist hsub

theorem bestLow_none {s : List ScoredTheme} (h : bestLowOf s = none) :
    ∀ x ∈ s, isLowImpact x = false := by
  intro x hx
  unfold bestLowOf at h
  rw [List.head?_eq_none_iff] at h
  have hfil : s.filter isLowImpact = [] := by
    have := sortByDesc_length scoreKey (s.filter isLowImpact)
    rw [h] at this
    exact List.length_eq_zero.mp this.symm
  by_contra hc
  have hxmem : x ∈ s.filter isLowImpact :=
    List.mem_filter.mpr ⟨hx, by revert hc; cases isLowImpact x <;> simp⟩
  rw [hfil] at hxmem
  exact absurd hxmem (List.not_mem_nil x)

theorem bestLow_spec {s : List ScoredTheme} {bl : ScoredTheme}
    (h : bestLowOf s = some bl) :
    isLowImpact bl = true ∧ bl ∈ s ∧
      ∀ x ∈ s, isLowImpact x = true → x.risk_score ≤ bl.risk_score := by
  unfold bestLowOf at h
  rcases hsort : sortByDesc scoreKey (s.filter isLowImpact) with _ | ⟨b0, t0⟩
  · rw [hsort] at h
    exact absurd h (by simp)
  · rw [hsort] at h
    have hbl : b0 = bl := by
      simpa using h
    subst hbl
    have hmem : b0 ∈ s.filter isLowImpact := by
      rw [← sortByDesc_mem scoreKey, hsort]
      exact List.mem_cons_self _ _
    have hmax := sortByDesc_head_max scoreKey hsort
    refine ⟨(List.mem_filter.mp hmem).2, (List.mem_filter.mp hmem).1, fun x hx hlow => ?_⟩
    have hxf : x ∈ s.filter isLowImpact := List.mem_filter.mpr ⟨hx, hlow⟩
    have hk := hmax x hxf
    simp only [scoreKey] at hk
    exact_mod_cast hk

/-- Core properties of the headline selection for any scored list whose
theme labels are pairwise distinct. -/
theorem headline_spec (s : List ScoredTheme) (hnod : (s.map ScoredTheme.theme).Nodup) :
    (headlineTop3 s).length ≤ 3 ∧
      ((headlineTop3 s).map ScoredTheme.theme).Nodup ∧
      ((∃ x ∈ s, isLowImpact x = true ∧ 0 < x.risk_score) →
        ∃ z ∈ headlineTop3 s, isLowImpact z = true) ∧
      ((candidate3Of s).any isLowImpact = false → 3 ≤ s.length →
        (∃ x ∈ s, isLowImpact x = true) →
        ∃ bl, isLowImpact bl = true ∧ bl ∈ s ∧
          (∀ x ∈ s, isLowImpact x = true → x.risk_score ≤ bl.risk_score) ∧
          headlineTop3 s = (byRiskDescOf s).take 2 ++ [bl]) := by
  rcases hB : bestLowOf s with _ | bl
  · -- no Low Impact theme exists at all
    have hnone := bestLow_none hB
    have htop : headlineTop3 s = candidate3Of s := by
      simp [headlineTop3, mkTop3, hB]
    refine ⟨?_, ?_, ?_, ?_⟩
    · rw [htop]
      exact List.length_take_le 3 (byRiskDescOf s)
    · rw [htop]
      exact candidate3_themes_nodup hnod
    · rintro ⟨x, hx, hlow, -⟩
      rw [hnone x hx] at hlow
      cases hlow
    · rintro - - ⟨x, hx, hlow⟩
      rw [hnone x hx] at hlow
      cases hlow
  · obtain ⟨hbllow, hblin, hblmax⟩ := bestLow_spec hB
    by_cases hany : (candidate3Of s).any isLowImpact
    · -- a Low Impact candidate is already among the top 3
      have htop : headlineTop3 s = candidate3Of s := by
        simp [headlineTop3, mkTop3, hB, hany]
      refine ⟨?_, ?_, ?_, ?_⟩
      · rw [htop]
        exact List.length_take_le 3 (byRiskDescOf s)
      · rw [htop]
        exact candidate3_themes_nodup hnod
      · intro _
        obtain ⟨z, hz, hzlow⟩ := List.any_eq_true.mp hany
        exact ⟨z, by rw [htop]; exact hz, hzlow⟩
      · intro hfalse
        rw [hfalse] at hany
        cases hany
    · -- no Low Impact candidate among the top 3
      have hanyf : (candidate3Of s).any isLowImpact = false := by
        revert hany
        cases (candidate3Of s).any isLowImpact <;> simp
      have hnotlow : ∀ z ∈ candidate3Of s, isLowImpact z = false := by
        intro z hz
        have := List.any_eq_false.mp hanyf z hz
        revert this
        cases isLowImpact z <;> simp
      have hshortcase : (candidate3Of s).length ≤ 2 → False := by
        intro hshort
        have hlen : (byRiskDescOf s).length ≤ 2 := by
          have h3 : (candidate3Of s).length = min 3 (byRiskDescOf s).length := by
            unfold candidate3Of
            exact List.length_take 3 (byRiskDescOf s)
          omega
        have hCall : candidate3Of s = byRiskDescOf s := by
          unfold candidate3Of
          exact List.take_of_length_le (by omega)
        have hblC : bl ∈ candidate3Of s := by
          rw [hCall]
          exact (sortByDesc_mem scoreKey).mpr hblin
        have hfalse := hnotlow bl hblC
        rw [hbllow] at hfalse
        cases hfalse
      rcases hC : candidate3Of s with _ | ⟨a, _ | ⟨b, _ | ⟨c, rest⟩⟩⟩
      -- short candidate lists: the take-3 prefix is all of the sorted list
      · exact (hshortcase (by rw [hC]; simp)).elim
      · exact (hshortcase (by rw [hC]; simp)).elim
      · exact (hshortcase (by rw [hC]; simp)).elim
      · have hanyf2 : (a :: b :: c :: rest).any isLowImpact = false := by
          rw [← hC]
          exact hanyf
        have htop : headlineTop3 s = [a, b, bl] := by
          simp [headlineTop3, mkTop3, hB, hC, hanyf2]
        have haC : a ∈ candidate3Of s := by rw [hC]; exact List.mem_cons_self _ _
        have hbC : b ∈ candidate3Of s := by
          rw [hC]
          exact List.mem_cons_of_mem _ (List.mem_cons_self _ _)
        have has : a ∈ s := mem_of_mem_candidate3 haC
        have hbs : b ∈ s := mem_of_mem_candidate3 hbC
        have hblne : ∀ z ∈ candidate3Of s, z.theme ≠ bl.theme := by
          intro z hz hth
          have hzs : z ∈ s := mem_of_mem_candidate3 hz
          have hzbl : z = bl := List.inj_on_of_nodup_map hnod hzs hblin hth
          have hf := hnotlow z hz
          rw [hzbl, hbllow] at hf
          simp at hf
        have habne : a.theme ≠ b.theme := by
          have hnC := candidate3_themes_nodup hnod
          rw [hC] at hnC
          simp only [List.map_cons, List.nodup_cons, List.mem_cons, List.mem_map] at hnC
          exact fun h => hnC.1 (Or.inl h)
        refine ⟨?_, ?_, ?_, ?_⟩
        · rw [htop]
          simp
        · rw [htop]
          simp only [List.map_cons, List.map_nil, List.nodup_cons, List.mem_cons,
            List.mem_singleton, List.not_mem_nil]
          refine ⟨?_, ?_, by simp⟩
          · rintro (h | h | h)
            · exact habne h
            · exact hblne a haC h
            · exact h
          · rintro (h | h)
            · exact hblne b hbC h
            · exact h
        · intro _
          refine ⟨bl, ?_, hbllow⟩
          rw [htop]
          simp
        · intro _ _ _
          refine ⟨bl, hbllow, hblin, hblmax, ?_⟩
          rw [htop]
          have htake2 : (byRiskDescOf s).take 2 = [a, b] := by
            have h22 : (byRiskDescOf s).take 2 = (candidate3Of s).take 2 := by
              unfold candidate3Of
              rw [List.take_take]
              norm_num
            rw [h22, hC]
            rfl
          rw [htake2]
          rfl

/-- C1: on every pipeline input, headline selection returns at most three
entries with pairwise-distinct theme labels; whenever a LowImpact-tier
theme with positive risk score exists among the scored themes, the result
contains a LowImpact-tier entry; and when no top-3 candidate is LowImpact,
at least three themes exist and a LowImpact theme exists, the third slot
is replaced by a highest-scoring LowImpact theme while the first two
slots are kept. -/
theorem c1_headline_selection (todayItems yesterdayItems : List FeedbackRow) :
    (headlineTop3 (aggregatedWithRisk todayItems yesterdayItems)).length ≤ 3 ∧
      ((headlineTop3 (aggregatedWithRisk todayItems yesterdayItems)).map
        ScoredTheme.theme).Nodup ∧
      ((∃ x ∈ aggregatedWithRisk todayItems yesterdayItems,
          isLowImpact x = true ∧ 0 < x.risk_score) →
        ∃ z ∈ headlineTop3 (aggregatedWithRisk todayItems yesterdayItems),
          isLowImpact z = true) ∧
      ((candidate3Of (aggregatedWithRisk todayItems yesterdayItems)).any isLowImpact = false →
        3 ≤ (aggregatedWithRisk todayItems yesterdayItems).length →
        (∃ x ∈ aggregatedWithRisk todayItems yesterdayItems, isLowImpact x = true) →
        ∃ bl, isLowImpact bl = true ∧ bl ∈ aggregatedWithRisk todayItems yesterdayItems ∧
          (∀ x ∈ aggregatedWithRisk todayItems yesterdayItems,
            isLowImpact x = true → x.risk_score ≤ bl.risk_score) ∧
          headlineTop3 (aggregatedWithRisk todayItems yesterdayItems) =
            (byRiskDescOf (aggregatedWithRisk todayItems yesterdayItems)).take 2 ++ [bl]) := by
  apply headline_spec
  rw [aggregatedWithRisk_themes, aggregateThemes_themes]
  exact foldl_addToday_keys_nodup _ [] (by simp)

/-- Concrete pipeline input for the headline witness: one Critical theme,
two Monitor themes, one Low Impact theme. -/
def c1rows : List FeedbackRow :=
  [⟨1, "email", "negative", "login broken", "t"⟩,
   ⟨2, "email", "negative", "login broken", "t"⟩,
   ⟨3, "email", "negative", "login broken", "t"⟩,
   ⟨4, "email", "negative", "login broken", "t"⟩,
   ⟨5, "email", "negative", "login broken", "t"⟩,
   ⟨6, "email", "negative", "login broken", "t"⟩,
   ⟨7, "email", "negative", "login broken", "t"⟩,
   ⟨8, "email", "negative", "support is slow", "t"⟩,
   ⟨9, "email", "negative", "support is slow", "t"⟩,
   ⟨10, "email", "negative", "support is slow", "t"⟩,
   ⟨11, "email", "negative", "support is slow", "t"⟩,
   ⟨12, "email", "negative", "email delivery issue", "t"⟩,
   ⟨13, "email", "negative", "email delivery issue", "t"⟩,
   ⟨14, "email", "negative", "email delivery issue", "t"⟩,
   ⟨15, "email", "negative", "email delivery issue", "t"⟩,
   ⟨16, "Discord", "positive", "docs are scattered", "t"⟩]

/-- Witness for C1: on the concrete input the diversity-rule hypotheses
hold and the third slot is replaced by the best Low Impact theme. -/
theorem c1_headline_selection_witness :
    ∃ bl, isLowImpact bl = true ∧ bl ∈ aggregatedWithRisk c1rows [] ∧
      (∀ x ∈ aggregatedWithRisk c1rows [],
        isLowImpact x = true → x.risk_score ≤ bl.risk_score) ∧
      headlineTop3 (aggregatedWithRisk c1rows []) =
        (byRiskDescOf (aggregatedWithRisk c1rows [])).take 2 ++ [bl] :=
  (c1_headline_selection c1rows []).2.2.2 (by decide) (by decide) (by decide)

/-! ### Claim theorems for the headline candidate ordering (C8) -/

/-- Rows producing two equal-score themes whose insertion order is the
reverse of the lexical order of their labels. -/
def c8rows : List FeedbackRow :=
  [⟨1, "Discord", "positive", "support is slow", "t"⟩,
   ⟨2, "Discord", "positive", "email delivery issue", "t"⟩]

/-- C8 counterexample: the headline candidate ordering keeps the two
equal-score themes in input order (Support Response Delays before Email
Delivery Issues) although the lexical order of the labels is the
opposite, refuting the lexical tie-break. -/
theorem c8_counterexample :
    (byRiskDescOf (aggregatedWithRisk c8rows [])).map ScoredTheme.theme =
        ["Support Response Delays", "Email Delivery Issues"] ∧
      (byRiskDescOf (aggregatedWithRisk c8rows [])).map ScoredTheme.risk_score = [1, 1] ∧
      ("Email Delivery Issues" < "Support Response Delays") :=
  ⟨by decide, by decide, by
    rw [String.lt_iff_toList_lt]
    decide⟩

/-- C8 amended: the headline candidate ordering sorts by risk_score
descending; entries of equal risk_score keep their input order (the JS
sort is stable and the comparator has no tie-break), with no lexical
reordering. -/
theorem c8_amended_stable_desc (l : List ScoredTheme) :
    ((byRiskDescOf l).Pairwise fun a b => b.risk_score ≤ a.risk_score) ∧
      (byRiskDescOf l).Perm l ∧
      ∀ k : Int, (byRiskDescOf l).filter (fun x => scoreKey x == k) =
        l.filter fun x => scoreKey x == k := by
  refine ⟨?_, sortByDesc_perm _ l, fun k => ?_⟩
  · have h := sortByDesc_sorted scoreKey l
    refine h.imp fun hab => ?_
    simp only [scoreKey] at hab
    exact_mod_cast hab
  · refine sortByDesc_filter_eq scoreKey l _ fun a b ha hb => ?_
    have ha2 : scoreKey a = k := by simpa using ha
    have hb2 : scoreKey b = k := by simpa using hb
    rw [ha2, hb2]

/-! ### Claim theorems for the ruleset ordering (C4) -/

/-- C4 counterexample: in the bucket-resolver fallback classifier the
generic authentication rule precedes the password-reset rule and its
password keyword captures the comment, so classification does not return
the password-reset theme. -/
theorem c4_counterexample :
    getThemeForCommentBackend "password reset" = "Authentication / Login Issues" ∧
      getThemeForCommentBackend "password reset" ≠ "Password Reset Issues" :=
  ⟨by decide, by decide⟩

/-- C4 amended: the password-reset rule precedes the generic rules only in
the oracle-label canonicalizer, where every label matching the
password-reset patterns maps to the password-reset theme.  In the backend
fallback classifier the authentication rule comes first and its password
keyword captures password reset and forgot password (reset link and
link expired still reach the password-reset rule), and the keyword theme
matcher has no password-reset theme at all: its authentication and
link/validation rules capture those phrases. -/
theorem c4_amended_password_reset_precedence (label : String)
    (h : wbTest passwordResetPats (lowerChars label.data) = true) :
    normalizeToCanonicalCluster label = "Password Reset Issues" ∧
      getThemeForCommentBackend "password reset" = "Authentication / Login Issues" ∧
      getThemeForCommentBackend "forgot password" = "Authentication / Login Issues" ∧
      getThemeForCommentBackend "reset link" = "Password Reset Issues" ∧
      getThemeForCommentBackend "link expired" = "Password Reset Issues" ∧
      keywordTheme (lowerChars "password reset".data) = some "Authentication / Login Issues" ∧
      keywordTheme (lowerChars "forgot password".data) = some "Authentication / Login Issues" ∧
      keywordTheme (lowerChars "reset link".data) = some "Link / Validation Errors" ∧
      keywordTheme (lowerChars "link expired".data) = some "Link / Validation Errors" := by
  refine ⟨?_, by decide, by decide, by decide, by decide, by decide, by decide, by decide,
    by decide⟩
  unfold normalizeToCanonicalCluster
  rw [if_pos h]

/-- Witness for C4 (amended): the canonicalizer maps the phrase password
reset to the password-reset theme. -/
theorem c4_amended_password_reset_precedence_witness :
    normalizeToCanonicalCluster "password reset" = "Password Reset Issues" :=
  (c4_amended_password_reset_precedence "password reset" (by decide)).1

/-! ### Lemmas for the deterministic bucket resolver (C10, C5) -/

theorem foldl_fallbackStep_skip {items : List FeedbackRow} {excl : List String}
    (h : ∀ r ∈ items, getThemeForCommentBackend r.comment = "Other" ∨
      excl.contains (getThemeForCommentBackend r.comment) = true) :
    ∀ m, items.foldl (fallbackStep excl) m = m := by
  induction items with
  | nil => intro m; rfl
  | cons r rest ih =>
    intro m
    have hcond : (getThemeForCommentBackend r.comment == "Other" ||
        excl.contains (getThemeForCommentBackend r.comment)) = true := by
      rcases h r (List.mem_cons_self _ _) with h1 | h1
      · simp [h1]
      · have h2 : getThemeForCommentBackend r.comment ∈ excl := by simpa using h1
        simp [h2]
    have hstep : fallbackStep excl m r = m := by
      simp only [fallbackStep]
      rw [if_pos hcond]
    rw [List.foldl_cons, hstep]
    exact ih (fun r' hr' => h r' (List.mem_cons_of_mem _ hr')) m

/-- Concrete record whose comment hits no keyword rule. -/
def c10rows : List FeedbackRow :=
  [⟨1, "Discord", "negative", "everything feels wrong today", "t"⟩]

/-- C10: when every record of a bucket classifies to Other or to an
excluded theme, the deterministic resolver returns null; so the critical
field of /api/kpi-themes can be null although the negative bucket is
non-empty, as the concrete record shows. -/
theorem c10_fallback_null (items : List FeedbackRow) (excludeThemes : List String)
    (preferTheme : Option String)
    (h : ∀ r ∈ items, getThemeForCommentBackend r.comment = "Other" ∨
      excludeThemes.contains (getThemeForCommentBackend r.comment) = true) :
    fallbackThemeAndCount items excludeThemes preferTheme = none ∧
      (apiKpiThemes c10rows).critical = none ∧ kpiCriticalItems c10rows ≠ [] := by
  refine ⟨?_, by decide, by decide⟩
  unfold fallbackThemeAndCount
  by_cases he : items.isEmpty
  · rw [if_pos he]
  · rw [if_neg he, foldl_fallbackStep_skip h]
    cases preferTheme <;> rfl

/-- Witness for C10: the resolver returns null on the concrete non-empty
bucket. -/
theorem c10_fallback_null_witness :
    fallbackThemeAndCount c10rows [] none = none :=
  (c10_fallback_null c10rows [] none (by decide)).1

theorem assocAppend_ne_nil (m : List (String × List FeedbackRow)) (k : String)
    (r : FeedbackRow) : assocAppend m k r ≠ [] := by
  cases m with
  | nil => simp [assocAppend]
  | cons e rest =>
    obtain ⟨k0, rows⟩ := e
    unfold assocAppend
    split_ifs <;> simp

theorem lowBucketStep_ne_nil {excl : List String} {io : Bool}
    {m : List (String × List FeedbackRow)} {r : FeedbackRow} (h : m ≠ []) :
    lowBucketStep excl io m r ≠ [] := by
  simp only [lowBucketStep]
  split_ifs
  · exact h
  · exact assocAppend_ne_nil _ _ _
  · exact assocAppend_ne_nil _ _ _

theorem lowBucketStep_survivor_ne_nil {excl : List String}
    {m : List (String × List FeedbackRow)} {r : FeedbackRow}
    (h : excl.contains (getThemeForCommentBackend r.comment) = false) :
    lowBucketStep excl true m r ≠ [] := by
  have h2 : getThemeForCommentBackend r.comment ∉ excl := by simpa using h
  simp only [lowBucketStep]
  rw [if_neg (by simp [h2])]
  exact assocAppend_ne_nil _ _ _

theorem foldl_lowBucketStep_preserve {excl : List String} {io : Bool}
    (items : List FeedbackRow) :
    ∀ m, m ≠ [] → items.foldl (lowBucketStep excl io) m ≠ [] := by
  induction items with
  | nil => exact fun _ hm => hm
  | cons x rest ih =>
    intro m hm
    rw [List.foldl_cons]
    exact ih _ (lowBucketStep_ne_nil hm)

theorem foldl_lowBucketStep_ne_nil {excl : List String} {items : List FeedbackRow}
    {r : FeedbackRow} (hr : r ∈ items)
    (h : excl.contains (getThemeForCommentBackend r.comment) = false) :
    ∀ m, items.foldl (lowBucketStep excl true) m ≠ [] := by
  induction items with
  | nil => exact absurd hr (List.not_mem_nil r)
  | cons x rest ih =>
    intro m
    rw [List.foldl_cons]
    rcases List.mem_cons.mp hr with rfl | hr2
    · exact foldl_lowBucketStep_preserve rest _ (lowBucketStep_survivor_ne_nil h)
    · exact ih hr2 _

theorem getTopThemesForLowBucket_ne_nil {items : List FeedbackRow} {excl : List String}
    {r : FeedbackRow} (hr : r ∈ items)
    (h : excl.contains (getThemeForCommentBackend r.comment) = false) :
    getTopThemesForLowBucket items excl true ≠ [] := by
  unfold getTopThemesForLowBucket
  rw [if_neg (by simp [List.isEmpty_iff, List.ne_nil_of_mem hr])]
  have hby : items.foldl (lowBucketStep excl true) [] ≠ [] :=
    foldl_lowBucketStep_ne_nil hr h []
  have hsort : sortByDesc (fun e => (e.2.length : Int))
      (items.foldl (lowBucketStep excl true) []) ≠ [] :=
    sortByDesc_ne_nil _ hby
  intro hnil
  rw [List.map_eq_nil_iff, List.take_eq_nil_iff] at hnil
  rcases hnil with h1 | h1
  · exact absurd h1 (by unfold LOW_IMPACT_MAX_ISSUES; omega)
  · exact hsort h1

/-! ### Claim theorems for the Low Impact relaxation (C5) -/

/-- Rows refuting the non-empty guarantee: the only positive record
classifies to the theme already resolved by the Critical bucket. -/
def c5rows : List FeedbackRow :=
  [⟨1, "Discord", "negative", "login failed", "t"⟩,
   ⟨2, "Discord", "positive", "login works great", "t"⟩]

/-- C5 counterexample: the positive bucket is non-empty yet the low field
of the /api/kpi-themes response is null, because its only record
classifies to the Critical bucket's label, which even the third
relaxation step still excludes. -/
theorem c5_counterexample :
    (apiKpiThemes c5rows).low = none ∧ kpiLowItems c5rows ≠ [] :=
  ⟨by decide, by decide⟩

/-- C5 amended: the three-step relaxation yields a non-empty issue list,
and hence a non-null low field, whenever the positive bucket has a record
whose backend theme is outside the resolved Critical and Monitor labels
(unclassified records count, folded into Various feedback); a bucket
whose every record classifies to those labels stays null. -/
theorem c5_amended_low_nonnull (items : List FeedbackRow)
    (h : ∃ r ∈ kpiLowItems items,
      (kpiMinimalExclude items).contains (getThemeForCommentBackend r.comment) = false) :
    (apiKpiThemes items).low ≠ none := by
  obtain ⟨r, hr, hexcl⟩ := h
  have hli : kpiLowItems items ≠ [] := List.ne_nil_of_mem hr
  have h3 : kpiLowIssues items ≠ [] := by
    unfold kpiLowIssues
    by_cases h2 : kpiLowStep2 items = []
    · rw [if_pos (by simp [h2, List.isEmpty_iff, hli])]
      exact getTopThemesForLowBucket_ne_nil hr hexcl
    · rw [if_neg (by simp [List.isEmpty_iff, h2])]
      exact h2
  unfold apiKpiThemes
  rw [if_pos]
  · simp
  · have := List.length_pos.mpr h3
    omega

/-- Concrete positive record outside every exclusion. -/
def c5witnessRows : List FeedbackRow :=
  [⟨1, "Discord", "positive", "love the new docs guide", "t"⟩]

/-- Witness for C5 (amended): a positive bucket with a record outside the
resolved labels yields a non-null low field. -/
theorem c5_amended_low_nonnull_witness :
    (apiKpiThemes c5witnessRows).low ≠ none :=
  c5_amended_low_nonnull c5witnessRows (by decide)

/-! ### Claim theorems for the oracle-assisted classifier (C6) -/

/-- C6: every violated oracle precondition (empty issue label, empty
matching-indices list, post-processed label over 5 words, canonicalized
label in the exclusion set, matched count below 5 percent of the bucket),
as well as a thrown oracle call or unparsable output, makes
generateThemeWithCount return exactly the deterministic fallback with the
same exclusion and preference arguments; the function is total and never
raises. -/
theorem c6_oracle_fallback (ai : AiResult) (items : List FeedbackRow)
    (excludeThemes : List String) (preferTheme : Option String)
    (h : ai = AiResult.failed ∨ ai = AiResult.unparsable ∨
      ∃ issue indices, ai = AiResult.parsed issue indices ∧
        ((issue.map strTrim).getD "" = "" ∨ indices.getD [] = [] ∨
         5 < (splitWs (postProcessThemeLabel ((issue.map strTrim).getD "")).data).length ∨
         excludeThemes.contains
           (normalizeToCanonicalCluster
             (postProcessThemeLabel ((issue.map strTrim).getD ""))) = true ∨
         20 * (countForCluster items
           (normalizeToCanonicalCluster
             (postProcessThemeLabel ((issue.map strTrim).getD "")))).1 < items.length)) :
    generateThemeWithCount ai items excludeThemes preferTheme =
      fallbackThemeAndCount items excludeThemes preferTheme := by
  have hempty : items.isEmpty = true →
      fallbackThemeAndCount items excludeThemes preferTheme = none := by
    intro he
    unfold fallbackThemeAndCount
    rw [if_pos he]
  rcases h with rfl | rfl | ⟨issue, indices, rfl, hcond⟩
  · unfold generateThemeWithCount
    by_cases he : items.isEmpty
    · rw [if_pos he, hempty he]
    · rw [if_neg he]
  · unfold generateThemeWithCount
    by_cases he : items.isEmpty
    · rw [if_pos he, hempty he]
    · rw [if_neg he]
  · by_cases he : items.isEmpty
    · unfold generateThemeWithCount
      rw [if_pos he, hempty he]
    · simp only [generateThemeWithCount, if_neg he]
      rcases hcond with h1 | h1 | h1 | h1 | h1 <;>
        split_ifs <;> first
          | rfl
          | (exfalso; simp_all)

/-- Concrete bucket for the oracle-fallback witness. -/
def c6rows : List FeedbackRow :=
  [⟨1, "Discord", "negative", "login failed", "t"⟩]

/-- Witness for C6: an oracle reply with an empty matching-indices list
(the specification's example label Login Bugs) resolves to the
deterministic fallback. -/
theorem c6_oracle_fallback_witness :
    generateThemeWithCount (AiResult.parsed (some "Login Bugs") (some [])) c6rows [] none =
      fallbackThemeAndCount c6rows [] none :=
  c6_oracle_fallback _ c6rows [] none
    (Or.inr (Or.inr ⟨some "Login Bugs", some [], rfl, Or.inr (Or.inl rfl)⟩))

/-! ### Claim theorems for the structured summary cache (C9) -/

/-- A cached structured summary distinct from any freshly computed one. -/
def c9cached : Summary :=
  ⟨"CACHED SUMMARY", [], []⟩

/-- A cache state that the claim calls valid: the entry was cached at the
very instant of the request. -/
def c9state : SummaryCacheState :=
  ⟨some c9cached, 0⟩

/-- Parsed oracle output for the C9 scenario. -/
def c9parsed : ParsedSummary :=
  ⟨some "All good.", none, none⟩

/-- C9: the /api/summary handler is not memoized.  With a cache cell
holding a just-stored summary, the handler still invokes the oracle
(third component true), returns a freshly computed response rather than
the cached value, and leaves the cache cell untouched; indeed the
response never depends on the cache state at all. -/
theorem c9_summary_not_memoized :
    (apiSummary c9state [aggRow] (SummaryAiOut.parsed c9parsed)).2.2 = true ∧
      (apiSummary c9state [aggRow] (SummaryAiOut.parsed c9parsed)).2.1 = c9state ∧
      (apiSummary c9state [aggRow] (SummaryAiOut.parsed c9parsed)).1 ≠
        SummaryResponse.ok c9cached ∧
      ∀ (st st' : SummaryCacheState) (items : List FeedbackRow) (ai : SummaryAiOut),
        (apiSummary st items ai).1 = (apiSummary st' items ai).1 := by
  refine ⟨by decide, by decide, by decide, ?_⟩
  intro st st' items ai
  unfold apiSummary
  by_cases he : items.isEmpty
  · rw [if_pos he, if_pos he]
  · rw [if_neg he, if_neg he]
    cases ai <;> rfl

end Dashboard
